import Mathlib

/-!
Verification development for the `lwgeom` Rust module (`src/lwgeom.rs`).

Modelling conventions:
* Coordinates are embedded as rationals (`ℚ`).  Every numeric fact proved
  below involves only exact dyadic arithmetic on the embedded values, so the
  rational model agrees with the `f64` computation of the source on these
  facts.
* The foreign geometry engine (`liblwgeom`, reached through `lwgeom_sys`) is
  an external collaborator treated as a black box: the outcome of a foreign
  parse call is an explicit input of the embedded functions, and the
  bounding-box / SRID accessors of a bounds geometry are fields of a record.
* The `i32` arithmetic is embedded as `Int` with explicit two's-complement
  wrapping where the source can overflow (the `1 << zoom.min(31)` shift).
* SRID convention of the engine: `0` is the "unknown" sentinel, so
  `has_srid` is `srid ≠ 0` and `get_srid` returns `none` for `0`.
-/

deriving instance DecidableEq for Except

/-- Error type mirroring `LWGeomError` of the crate (the variants the
claims touch). -/
inductive LWGeomError where
  | WKTParseError (msg : String)
  | FailedWithoutMessageError (op : String)
  | NullPtrError
  | InvalidParameterError (op : String) (param : String)
deriving DecidableEq, Repr

/-- A geometry node as the claims see it: an SRID word (engine sentinel `0`
means "no SRID") plus its coordinate payload. -/
structure Geom where
  srid : Int
  coords : List (ℚ × ℚ)
deriving DecidableEq, Repr

/-- Engine query `lwgeom_has_srid`: nonzero SRID word. -/
def Geom.has_srid (g : Geom) : Bool := g.srid ≠ 0

/-- Wrapper `LWGeom::get_srid` (src/src/lwgeom.rs:194-200): `some` exactly
when `has_srid`. -/
def Geom.get_srid (g : Geom) : Option Int :=
  if g.has_srid then some g.srid else none

/-- Wrapper `LWGeom::set_srid` (src/src/lwgeom.rs:202-204): in-place SRID
store, no validation. -/
def Geom.set_srid (g : Geom) (srid : Int) : Geom :=
  { g with srid := srid }

/-- Outcome of a foreign `lwgeom_parse_wkt` call, as surfaced by the parser
result adapter: failure with an optional diagnostic message, or a parsed
geometry whose ownership is taken. -/
inductive ParseResult where
  | failure (message : Option String)
  | success (geom : Geom)
deriving DecidableEq, Repr

/-- Result of `from_text` / `from_ewkt`, including the process-abort path
the source reaches on src/src/lwgeom.rs:78. -/
inductive FromTextResult where
  | ok (g : Geom)
  | err (e : LWGeomError)
  | panicked (msg : String)
deriving DecidableEq, Repr

/-- Function `LWGeom::from_text` (src/src/lwgeom.rs:59-85), as a function of
the foreign parser's outcome.  On failure it wraps the parser message in
`WKTParseError`, or `FailedWithoutMessageError("lwgeom_parse_wkt")` when no
message is available; on success it aborts if the geometry already carries
an SRID, otherwise assigns the explicit SRID when one is supplied. -/
def from_text (pr : ParseResult) (srid : Option Int) : FromTextResult :=
  match pr with
  | .failure message =>
      match message with
      | some m => .err (.WKTParseError m)
      | none => .err (.FailedWithoutMessageError ("lwgeom_parse_wkt"))
  | .success g =>
      if g.has_srid then
        .panicked ("OGC WKT expected, EWKT provided - use from_ewkt() for this")
      else
        match srid with
        | some s => .ok (g.set_srid s)
        | none => .ok g

/-- Function `LWGeom::from_ewkt` (src/src/lwgeom.rs:87-105): same failure
handling as `from_text`, but the successfully parsed geometry is returned
as-is, with no post-parse SRID check. -/
def from_ewkt (pr : ParseResult) : FromTextResult :=
  match pr with
  | .failure message =>
      match message with
      | some m => .err (.WKTParseError m)
      | none => .err (.FailedWithoutMessageError ("lwgeom_parse_wkt"))
  | .success g => .ok g

/-- A varlena-style foreign buffer: declared byte length plus raw bytes
(fields `size` and `data` of the struct behind `p_varlena`). -/
structure Varlena where
  size : Nat
  data : List Nat
deriving DecidableEq, Repr

/-- Byte extraction of `LWGeom::as_ewkb` (src/src/lwgeom.rs:169-186), as a
function of the foreign serializer's output buffer (`none` when
`lwgeom_to_wkb_varlena` returned null): copies exactly the declared number
of bytes out of the buffer, never scanning for a terminator. -/
def as_ewkb_bytes (buf : Option Varlena) : Except LWGeomError (List Nat) :=
  match buf with
  | none => .error .NullPtrError
  | some v => .ok (v.data.take v.size)

/-- Function `LWGeom::from_ewkb` (src/src/lwgeom.rs:107-115), as a function
of the foreign `lwgeom_from_wkb` parse (a black box mapping bytes to an
optional geometry): null result becomes `NullPtrError`. -/
def from_ewkb (parse : List Nat → Option Geom) (ewkb : List Nat) :
    Except LWGeomError Geom :=
  match parse ewkb with
  | none => .error .NullPtrError
  | some g => .ok g

/-- Round trip of `as_ewkb` followed by `from_ewkb`, wiring the copied bytes
of the serialization into the binary parser exactly as a caller would. -/
def ewkb_round_trip (ser : Geom → Option Varlena)
    (parse : List Nat → Option Geom) (g : Geom) : Except LWGeomError Geom :=
  match as_ewkb_bytes (ser g) with
  | .error e => .error e
  | .ok bytes => from_ewkb parse bytes

/-- Events recorded by the serialization wrappers: copying the foreign
buffer's bytes into the owned result, and releasing the buffer (the
`lwfree` call). -/
inductive SerEvent where
  | copy (bytes : List Nat)
  | free
deriving DecidableEq, Repr

/-- A plain foreign text buffer as `lwgeom_to_wkt` returns it: the bytes
behind the returned pointer plus the size written through the
out-parameter. -/
structure WktBuffer where
  size : Nat
  data : List Nat
deriving DecidableEq, Repr

/-- Buffer discipline of `LWGeom::as_text` and `LWGeom::as_ewkt`
(src/src/lwgeom.rs:119-167): the two differ only in the dialect flag passed
to the engine, so one trace model covers both.  On a null buffer the
wrapper returns `NullPtrError` without touching the allocator; otherwise it
copies `size` bytes out and then issues exactly one release. -/
def as_wkt_trace (buf : Option WktBuffer) :
    Except LWGeomError (List Nat) × List SerEvent :=
  match buf with
  | none => (.error .NullPtrError, [])
  | some b =>
      let copied := b.data.take b.size
      (.ok copied, [.copy copied, .free])

/-- Buffer discipline of `LWGeom::as_ewkb` (src/src/lwgeom.rs:169-186): a
null buffer short-circuits with no release, otherwise the declared `size`
bytes are copied and the varlena is released once, afterwards. -/
def as_ewkb_trace (buf : Option Varlena) :
    Except LWGeomError (List Nat) × List SerEvent :=
  match buf with
  | none => (.error .NullPtrError, [])
  | some v =>
      let copied := v.data.take v.size
      (.ok copied, [.copy copied, .free])

/-- Number of release events in a trace. -/
def freeCount (tr : List SerEvent) : Nat :=
  (tr.filter (fun e => e = SerEvent.free)).length

/-- Bounding box reference (accessors `xmin/ymin/xmax/ymax` of `GBoxRef`). -/
structure GBox where
  xmin : ℚ
  ymin : ℚ
  xmax : ℚ
  ymax : ℚ
deriving DecidableEq, Repr

/-- What `tile_envelope` reads from its bounds geometry: the SRID query
(`get_srid`) and the cached bounding box (`get_bbox_ref`). -/
structure Bounds where
  srid : Option Int
  bbox : GBox
deriving DecidableEq, Repr

/-- Web-Mercator half-extent appearing in the default bounds literal
`SRID=3857;LINESTRING(-20037508.342789 -20037508.342789,20037508.342789
20037508.342789)` on src/src/lwgeom.rs:219. -/
def webMercHalf : ℚ := 20037508342789 / 1000000

/-- The default bounds of `tile_envelope` (src/src/lwgeom.rs:219): the
parsed diagonal linestring carries SRID 3857 and its bounding box spans the
global Web-Mercator extent on both axes. -/
def defaultBounds : Bounds :=
  { srid := some 3857
    bbox := { xmin := -webMercHalf, ymin := -webMercHalf
              xmax := webMercHalf, ymax := webMercHalf } }

/-- The polygon produced by the envelope constructor: resolved SRID plus the
single exterior ring. -/
structure EnvPoly where
  srid : Int
  ring : List (ℚ × ℚ)
deriving DecidableEq, Repr

/-- Modelled from the spec: `LWPoly::construct_envelope` lives in
`src/lwpoly.rs`, which is not part of the provided sources.  Per the spec it
builds "a closed rectangular polygon with exactly one exterior ring of 5
vertices (4 corners, first repeated last), tagged with the resolved SRID".
The corner order used here is the conventional counter-clockwise one; no
claim depends on the order, only on closure, vertex count, and extent. -/
def construct_envelope (srid : Int) (x1 y1 x2 y2 : ℚ) : EnvPoly :=
  { srid := srid
    ring := [(x1, y1), (x1, y2), (x2, y2), (x2, y1), (x1, y1)] }

/-- Value of the Rust expression `1 << zoom.min(31)` at type `i32`:
two's-complement wrap of `2 ^ min zoom 31`.  For `zoom ≤ 30` this is
`2 ^ zoom`; at `zoom = 31` the shift lands on the sign bit and the value is
`-2 ^ 31`. -/
def worldTileSize (zoom : Int) : Int :=
  (Int.ofNat ((2 ^ (min zoom 31).toNat + 2 ^ 31) % 2 ^ 32)) - 2 ^ 31

/-- Function `LWGeom::tile_envelope` (src/src/lwgeom.rs:216-287).
Validation in source order (margin, bounds, zoom, x, y), then the tile
rectangle with the margin-overflow clamp on X, the inverted Y axis, and the
one-sided clamps of `y1` and `y2` into the bounds. -/
def tile_envelope (zoom x y : Int) (boundsOpt : Option Bounds)
    (marginOpt : Option ℚ) : Except LWGeomError EnvPoly :=
  let bounds := boundsOpt.getD defaultBounds
  let bbox := bounds.bbox
  let srid := bounds.srid.getD 3857
  let margin := marginOpt.getD 0
  if margin < -(1/2 : ℚ) then
    .error (.InvalidParameterError ("ST_TileEnvelope") ("margin"))
  else
    let bounds_width := bbox.xmax - bbox.xmin
    let bounds_height := bbox.ymax - bbox.ymin
    if bounds_width ≤ 0 ∨ bounds_height ≤ 0 then
      .error (.InvalidParameterError ("ST_TileEnvelope") ("bounds"))
    else if ¬ (0 ≤ zoom ∧ zoom < 32) then
      .error (.InvalidParameterError ("ST_TileEnvelope") ("zoom"))
    else
      let world_tile_size := worldTileSize zoom
      if x < 0 ∨ world_tile_size ≤ x then
        .error (.InvalidParameterError ("ST_TileEnvelope") ("x"))
      else if y < 0 ∨ world_tile_size ≤ y then
        .error (.InvalidParameterError ("ST_TileEnvelope") ("y"))
      else
        let tile_geo_size_x := bounds_width / (world_tile_size : ℚ)
        let tile_geo_size_y := bounds_height / (world_tile_size : ℚ)
        let xs : ℚ × ℚ :=
          if (1 + margin * 2 : ℚ) > (world_tile_size : ℚ) then
            (bbox.xmin, bbox.xmax)
          else
            (bbox.xmin + tile_geo_size_x * ((x : ℚ) - margin),
             bbox.xmin + tile_geo_size_x * ((x : ℚ) + 1 + margin))
        let y1 := bbox.ymax - tile_geo_size_y * ((y : ℚ) + 1 + margin)
        let y2 := bbox.ymax - tile_geo_size_y * ((y : ℚ) - margin)
        let y1 := if y1 < bbox.ymin then bbox.ymin else y1
        let y2 := if y2 > bbox.ymax then bbox.ymax else y2
        .ok (construct_envelope srid xs.1 y1 xs.2 y2)

/-- From the spec's words: the published lower Y edge, `y1 = ymax -
tile_size_y*(y + 1 + margin)` clamped into the bounds from below. -/
def spec_y1 (ymin ymax tsy yq m : ℚ) : ℚ :=
  max ymin (ymax - tsy * (yq + 1 + m))

/-- From the spec's words: the published upper Y edge, `y2 = ymax -
tile_size_y*(y - margin)` clamped into the bounds from above. -/
def spec_y2 (ymax tsy yq m : ℚ) : ℚ :=
  min ymax (ymax - tsy * (yq - m))

lemma ite_lt_eq_max (a b : ℚ) : (if a < b then b else a) = max b a := by
  rcases lt_or_le a b with h | h
  · rw [if_pos h, max_eq_left h.le]
  · rw [if_neg (not_lt.mpr h), max_eq_right h]

lemma ite_gt_eq_min (a b : ℚ) : (if a > b then b else a) = min b a := by
  rcases lt_or_le b a with h | h
  · rw [if_pos h, min_eq_left h.le]
  · rw [if_neg (not_lt.mpr h), min_eq_right h]

/-- Toy engine serializer used to instantiate the round-trip theorem on a
concrete input; its encoding deliberately contains embedded zero bytes. -/
def demoSer : Geom → Option Varlena :=
  fun _ => some { size := 3, data := [0, 7, 0] }

/-- Toy engine binary parser inverting `demoSer` on the geometry used by the
concrete instantiation. -/
def demoParse : List Nat → Option Geom :=
  fun bytes =>
    if bytes = [0, 7, 0] then some { srid := 4326, coords := [(1, 2)] }
    else none

/-- C3: whenever the foreign parser succeeds but the parsed geometry already
carries an SRID (the input was EWKT, not plain WKT), `from_text` neither
returns a handle nor a recoverable error: it takes the process-abort path,
for every explicit-SRID argument. -/
theorem from_text_aborts_on_embedded_srid (g : Geom) (srid : Option Int)
    (h : g.has_srid = true) :
    from_text (.success g) srid =
      .panicked ("OGC WKT expected, EWKT provided - use from_ewkt() for this") := by
  simp [from_text, h]

/-- Witness for C3 at a concrete EWKT-parsed geometry. -/
theorem from_text_aborts_on_embedded_srid_witness :
    from_text (.success { srid := 4326, coords := [(1, 2)] }) none =
      .panicked ("OGC WKT expected, EWKT provided - use from_ewkt() for this") :=
  from_text_aborts_on_embedded_srid { srid := 4326, coords := [(1, 2)] } none
    (by decide)

/-- C4: when the foreign parser reports failure, `from_text` and `from_ewkt`
return `WKTParseError(message)` if a message is available and
`FailedWithoutMessageError("lwgeom_parse_wkt")` otherwise, and neither takes
the abort path on a parser-reported failure. -/
theorem parse_failure_error_kinds (msg : Option String) (srid : Option Int) :
    (from_text (.failure msg) srid =
      .err (match msg with
            | some m => LWGeomError.WKTParseError m
            | none => LWGeomError.FailedWithoutMessageError ("lwgeom_parse_wkt"))) ∧
    (from_ewkt (.failure msg) =
      .err (match msg with
            | some m => LWGeomError.WKTParseError m
            | none => LWGeomError.FailedWithoutMessageError ("lwgeom_parse_wkt"))) ∧
    (∀ s, from_text (.failure msg) srid ≠ .panicked s) ∧
    (∀ s, from_ewkt (.failure msg) ≠ .panicked s) := by
  cases msg <;> simp [from_text, from_ewkt]

/-- Witness for C4 at a concrete failed parse carrying a message. -/
theorem parse_failure_error_kinds_witness :
    from_text (.failure (some ("syntax error"))) none =
      .err (.WKTParseError ("syntax error")) :=
  (parse_failure_error_kinds (some ("syntax error")) none).1

/-- C6: whenever the engine's binary parser inverts its serializer on the
bytes the wrapper hands over, `from_ewkb` after `as_ewkb` returns exactly
the original geometry (same SRID, same coordinates); and `as_ewkb` copies
the buffer's declared byte length — embedded zero bytes included, as the
concrete buffer `[1, 0, 2, 3]` shows — rather than scanning for a
terminator. -/
theorem ewkb_round_trip_preserves :
    (∀ (ser : Geom → Option Varlena) (parse : List Nat → Option Geom)
      (g : Geom) (v : Varlena),
      ser g = some v → parse (v.data.take v.size) = some g →
      ewkb_round_trip ser parse g = .ok g) ∧
    (∀ v : Varlena, as_ewkb_bytes (some v) = .ok (v.data.take v.size)) ∧
    (as_ewkb_bytes (some { size := 4, data := [1, 0, 2, 3] }) =
      .ok [1, 0, 2, 3]) := by
  refine ⟨?_, fun v => rfl, by decide⟩
  intro ser parse g v hser hparse
  simp [ewkb_round_trip, as_ewkb_bytes, from_ewkb, hser, hparse]

/-- Witness for C6: the round trip at a concrete geometry through a concrete
engine whose encoding holds zero bytes. -/
theorem ewkb_round_trip_preserves_witness :
    ewkb_round_trip demoSer demoParse { srid := 4326, coords := [(1, 2)] } =
      .ok { srid := 4326, coords := [(1, 2)] } :=
  ewkb_round_trip_preserves.1 demoSer demoParse
    { srid := 4326, coords := [(1, 2)] } { size := 3, data := [0, 7, 0] }
    rfl (by rfl)

/-- C7: on a plain-WKT parse success with no embedded SRID, `from_text`
assigns the explicitly supplied SRID (so supplying 4326 makes `get_srid`
report `some 4326`), and leaves the geometry without an SRID when none is
supplied (so `get_srid` reports `none`). -/
theorem from_text_srid_assignment (g : Geom) (h : g.srid = 0) :
    (∀ s, from_text (.success g) (some s) = .ok (g.set_srid s)) ∧
    ((g.set_srid 4326).get_srid = some 4326) ∧
    (from_text (.success g) none = .ok g) ∧
    (g.get_srid = none) := by
  refine ⟨fun s => ?_, ?_, ?_, ?_⟩ <;>
    simp [from_text, Geom.has_srid, Geom.set_srid, Geom.get_srid, h]

/-- Witness for C7 at the geometry parsed from `POINT(1 2)`. -/
theorem from_text_srid_assignment_witness :
    from_text (.success { srid := 0, coords := [(1, 2)] }) (some 4326) =
      .ok (Geom.set_srid { srid := 0, coords := [(1, 2)] } 4326) :=
  (from_text_srid_assignment { srid := 0, coords := [(1, 2)] } rfl).1 4326

/-- C8: on any successful parse, `from_ewkt` returns the parsed geometry
as-is — no post-parse SRID conflict check and never the abort path — so an
embedded SRID such as 4326 is preserved and reported by `get_srid`. -/
theorem from_ewkt_preserves_srid (g : Geom) :
    (from_ewkt (.success g) = .ok g) ∧
    (∀ s, from_ewkt (.success g) ≠ .panicked s) ∧
    (g.srid = 4326 → g.get_srid = some 4326) := by
  refine ⟨rfl, fun s => by simp [from_ewkt], fun h => ?_⟩
  simp [Geom.get_srid, Geom.has_srid, h]

/-- Witness for C8 at the geometry parsed from `SRID=4326;POINT(1 2)`. -/
theorem from_ewkt_preserves_srid_witness :
    from_ewkt (.success { srid := 4326, coords := [(1, 2)] }) =
      .ok { srid := 4326, coords := [(1, 2)] } :=
  (from_ewkt_preserves_srid { srid := 4326, coords := [(1, 2)] }).1

/-- C9: on every successful serialization (`as_text` / `as_ewkt` via
`as_wkt_trace`, `as_ewkb` via `as_ewkb_trace`) the trace is exactly one copy
of the buffer's bytes followed by exactly one release — so the single
release happens after the copy and never twice — while the `NullPtrError`
path issues no release at all. -/
theorem serialization_single_release :
    (∀ b : WktBuffer,
      as_wkt_trace (some b) =
        (.ok (b.data.take b.size),
          [.copy (b.data.take b.size), .free]) ∧
      freeCount (as_wkt_trace (some b)).2 = 1) ∧
    (as_wkt_trace none = (.error .NullPtrError, []) ∧
      freeCount (as_wkt_trace none).2 = 0) ∧
    (∀ v : Varlena,
      as_ewkb_trace (some v) =
        (.ok (v.data.take v.size),
          [.copy (v.data.take v.size), .free]) ∧
      freeCount (as_ewkb_trace (some v)).2 = 1) ∧
    (as_ewkb_trace none = (.error .NullPtrError, []) ∧
      freeCount (as_ewkb_trace none).2 = 0) := by
  refine ⟨fun b => ⟨rfl, ?_⟩, ⟨rfl, rfl⟩, fun v => ⟨rfl, ?_⟩, ⟨rfl, rfl⟩⟩ <;>
    simp [as_wkt_trace, as_ewkb_trace, freeCount]

/-- Witness for C9 at a concrete WKT buffer. -/
theorem serialization_single_release_witness :
    freeCount (as_wkt_trace (some { size := 2, data := [80, 0] })).2 = 1 :=
  (serialization_single_release.1 { size := 2, data := [80, 0] }).2

lemma tile_envelope_ok_shape (zoom x y : Int) (b? : Option Bounds)
    (m? : Option ℚ) (p : EnvPoly)
    (h : tile_envelope zoom x y b? m? = .ok p) :
    ∃ x1 x2, p =
      construct_envelope ((b?.getD defaultBounds).srid.getD 3857) x1
        (spec_y1 (b?.getD defaultBounds).bbox.ymin
          (b?.getD defaultBounds).bbox.ymax
          (((b?.getD defaultBounds).bbox.ymax -
            (b?.getD defaultBounds).bbox.ymin) / (worldTileSize zoom : ℚ))
          (y : ℚ) (m?.getD 0))
        x2
        (spec_y2 (b?.getD defaultBounds).bbox.ymax
          (((b?.getD defaultBounds).bbox.ymax -
            (b?.getD defaultBounds).bbox.ymin) / (worldTileSize zoom : ℚ))
          (y : ℚ) (m?.getD 0)) := by
  simp only [tile_envelope] at h
  rw [ite_lt_eq_max, ite_gt_eq_min] at h
  split_ifs at h with h1 h2 h3 h4 h5 h6
  · injection h with h
    subst h
    exact ⟨_, _, by simp only [spec_y1, spec_y2]; rfl⟩
  · injection h with h
    subst h
    exact ⟨_, _, by simp only [spec_y1, spec_y2]; rfl⟩

/-- C1: `tile_envelope` validates in a fixed order with first failure
winning — margin below -1/2 (regardless of any other invalid parameter),
then non-positive bounds width or height, then zoom outside [0, 32), then
x outside [0, world_tile_size), then y outside [0, world_tile_size), where
`world_tile_size` is the `i32` value of `1 << min(zoom, 31)`; and the
concrete call with zoom 0, x 1, y 0 fails naming "x". -/
theorem tile_envelope_validation_order (zoom x y : Int) (b? : Option Bounds)
    (m? : Option ℚ) :
    ((m?.getD 0 < -(1/2 : ℚ)) →
      tile_envelope zoom x y b? m? =
        .error (.InvalidParameterError ("ST_TileEnvelope") ("margin"))) ∧
    ((¬ m?.getD 0 < -(1/2 : ℚ)) →
      ((b?.getD defaultBounds).bbox.xmax - (b?.getD defaultBounds).bbox.xmin ≤ 0 ∨
        (b?.getD defaultBounds).bbox.ymax - (b?.getD defaultBounds).bbox.ymin ≤ 0) →
      tile_envelope zoom x y b? m? =
        .error (.InvalidParameterError ("ST_TileEnvelope") ("bounds"))) ∧
    ((¬ m?.getD 0 < -(1/2 : ℚ)) →
      (¬ ((b?.getD defaultBounds).bbox.xmax - (b?.getD defaultBounds).bbox.xmin ≤ 0 ∨
        (b?.getD defaultBounds).bbox.ymax - (b?.getD defaultBounds).bbox.ymin ≤ 0)) →
      (¬ (0 ≤ zoom ∧ zoom < 32)) →
      tile_envelope zoom x y b? m? =
        .error (.InvalidParameterError ("ST_TileEnvelope") ("zoom"))) ∧
    ((¬ m?.getD 0 < -(1/2 : ℚ)) →
      (¬ ((b?.getD defaultBounds).bbox.xmax - (b?.getD defaultBounds).bbox.xmin ≤ 0 ∨
        (b?.getD defaultBounds).bbox.ymax - (b?.getD defaultBounds).bbox.ymin ≤ 0)) →
      (0 ≤ zoom ∧ zoom < 32) →
      (x < 0 ∨ worldTileSize zoom ≤ x) →
      tile_envelope zoom x y b? m? =
        .error (.InvalidParameterError ("ST_TileEnvelope") ("x"))) ∧
    ((¬ m?.getD 0 < -(1/2 : ℚ)) →
      (¬ ((b?.getD defaultBounds).bbox.xmax - (b?.getD defaultBounds).bbox.xmin ≤ 0 ∨
        (b?.getD defaultBounds).bbox.ymax - (b?.getD defaultBounds).bbox.ymin ≤ 0)) →
      (0 ≤ zoom ∧ zoom < 32) →
      (¬ (x < 0 ∨ worldTileSize zoom ≤ x)) →
      (y < 0 ∨ worldTileSize zoom ≤ y) →
      tile_envelope zoom x y b? m? =
        .error (.InvalidParameterError ("ST_TileEnvelope") ("y"))) ∧
    (tile_envelope 0 1 0 none none =
      .error (.InvalidParameterError ("ST_TileEnvelope") ("x"))) := by
  refine ⟨fun h1 => ?_, fun h1 h2 => ?_, fun h1 h2 h3 => ?_,
    fun h1 h2 h3 h4 => ?_, fun h1 h2 h3 h4 h5 => ?_, ?_⟩
  · simp only [tile_envelope]
    rw [if_pos h1]
  · simp only [tile_envelope]
    rw [if_neg h1, if_pos h2]
  · simp only [tile_envelope]
    rw [if_neg h1, if_neg h2, if_pos h3]
  · simp only [tile_envelope]
    rw [if_neg h1, if_neg h2, if_neg (not_not_intro h3), if_pos h4]
  · simp only [tile_envelope]
    rw [if_neg h1, if_neg h2, if_neg (not_not_intro h3), if_neg h4, if_pos h5]
  · norm_num [tile_envelope, defaultBounds, webMercHalf, worldTileSize,
      Int.toNat_ofNat]

/-- Witness for C1: the spec's margin-bound test, zoom 5 with margin -0.6
failing on "margin". -/
theorem tile_envelope_validation_order_witness :
    tile_envelope 5 0 0 none (some (-(3/5))) =
      .error (.InvalidParameterError ("ST_TileEnvelope") ("margin")) :=
  (tile_envelope_validation_order 5 0 0 none (some (-(3/5)))).1 (by norm_num)

/-- C2: the zoom-0 tile with default bounds and no margin is the closed
rectangle exactly covering the global Web-Mercator extent
[-20037508.342789, 20037508.342789] on both axes, with SRID 3857, one
exterior ring of 5 vertices whose first vertex repeats as the last. -/
theorem tile_envelope_default_global_extent :
    tile_envelope 0 0 0 none none =
      .ok (construct_envelope 3857 (-webMercHalf) (-webMercHalf)
        webMercHalf webMercHalf) ∧
    (construct_envelope 3857 (-webMercHalf) (-webMercHalf) webMercHalf
        webMercHalf).srid = 3857 ∧
    (construct_envelope 3857 (-webMercHalf) (-webMercHalf) webMercHalf
        webMercHalf).ring.length = 5 ∧
    (construct_envelope 3857 (-webMercHalf) (-webMercHalf) webMercHalf
        webMercHalf).ring.head? =
      (construct_envelope 3857 (-webMercHalf) (-webMercHalf) webMercHalf
        webMercHalf).ring.getLast? ∧
    (construct_envelope 3857 (-webMercHalf) (-webMercHalf) webMercHalf
        webMercHalf).ring.map Prod.fst =
      [-webMercHalf, -webMercHalf, webMercHalf, webMercHalf, -webMercHalf] ∧
    (construct_envelope 3857 (-webMercHalf) (-webMercHalf) webMercHalf
        webMercHalf).ring.map Prod.snd =
      [-webMercHalf, webMercHalf, webMercHalf, -webMercHalf, -webMercHalf] ∧
    webMercHalf = 20037508342789 / 1000000 := by
  refine ⟨?_, rfl, rfl, rfl, rfl, rfl, rfl⟩
  norm_num [tile_envelope, defaultBounds, webMercHalf, worldTileSize,
    construct_envelope, Int.toNat_ofNat, show Int.toNat 2 = 2 from rfl]

/-- C5: every successful `tile_envelope` result has its Y edges equal to the
inverted-axis formulas with `y1` clamped from below by `ymin` and `y2`
clamped from above by `ymax` (so `ymin ≤ y1` and `y2 ≤ ymax`), while the X
axis gets no analogous clamp: the valid call with zoom 2 and margin 1
returns an `x1` strictly below `xmin`. -/
theorem tile_envelope_y_clamped_x_unclamped :
    (∀ (zoom x y : Int) (b? : Option Bounds) (m? : Option ℚ) (p : EnvPoly),
      tile_envelope zoom x y b? m? = .ok p →
      ∃ x1 x2, p =
        construct_envelope ((b?.getD defaultBounds).srid.getD 3857) x1
          (spec_y1 (b?.getD defaultBounds).bbox.ymin
            (b?.getD defaultBounds).bbox.ymax
            (((b?.getD defaultBounds).bbox.ymax -
              (b?.getD defaultBounds).bbox.ymin) / (worldTileSize zoom : ℚ))
            (y : ℚ) (m?.getD 0))
          x2
          (spec_y2 (b?.getD defaultBounds).bbox.ymax
            (((b?.getD defaultBounds).bbox.ymax -
              (b?.getD defaultBounds).bbox.ymin) / (worldTileSize zoom : ℚ))
            (y : ℚ) (m?.getD 0)) ∧
        (b?.getD defaultBounds).bbox.ymin ≤
          spec_y1 (b?.getD defaultBounds).bbox.ymin
            (b?.getD defaultBounds).bbox.ymax
            (((b?.getD defaultBounds).bbox.ymax -
              (b?.getD defaultBounds).bbox.ymin) / (worldTileSize zoom : ℚ))
            (y : ℚ) (m?.getD 0) ∧
        spec_y2 (b?.getD defaultBounds).bbox.ymax
            (((b?.getD defaultBounds).bbox.ymax -
              (b?.getD defaultBounds).bbox.ymin) / (worldTileSize zoom : ℚ))
            (y : ℚ) (m?.getD 0) ≤
          (b?.getD defaultBounds).bbox.ymax) ∧
    (tile_envelope 2 0 0 none (some 1) =
      .ok (construct_envelope 3857 (-(3 * webMercHalf) / 2) 0 0
        webMercHalf)) ∧
    (-(3 * webMercHalf) / 2 < defaultBounds.bbox.xmin) := by
  refine ⟨?_, ?_, ?_⟩
  · intro zoom x y b? m? p h
    obtain ⟨x1, x2, rfl⟩ := tile_envelope_ok_shape zoom x y b? m? p h
    exact ⟨x1, x2, rfl, le_max_left _ _, min_le_left _ _⟩
  · norm_num [tile_envelope, defaultBounds, webMercHalf, worldTileSize,
      construct_envelope, Int.toNat_ofNat, show Int.toNat 2 = 2 from rfl]
  · norm_num [defaultBounds, webMercHalf]

/-- Witness for C5: the universal Y-clamp description instantiated at the
concrete zoom-2, margin-1 call. -/
theorem tile_envelope_y_clamped_x_unclamped_witness :
    ∃ x1 x2,
      construct_envelope 3857 (-(3 * webMercHalf) / 2) 0 0 webMercHalf =
        construct_envelope 3857 x1
          (spec_y1 (-webMercHalf) webMercHalf
            ((webMercHalf - -webMercHalf) / (worldTileSize 2 : ℚ))
            ((0 : Int) : ℚ) 1)
          x2
          (spec_y2 webMercHalf
            ((webMercHalf - -webMercHalf) / (worldTileSize 2 : ℚ))
            ((0 : Int) : ℚ) 1) ∧
      -webMercHalf ≤
        spec_y1 (-webMercHalf) webMercHalf
          ((webMercHalf - -webMercHalf) / (worldTileSize 2 : ℚ))
          ((0 : Int) : ℚ) 1 ∧
      spec_y2 webMercHalf
          ((webMercHalf - -webMercHalf) / (worldTileSize 2 : ℚ))
          ((0 : Int) : ℚ) 1 ≤
        webMercHalf :=
  tile_envelope_y_clamped_x_unclamped.1 2 0 0 none (some 1)
    (construct_envelope 3857 (-(3 * webMercHalf) / 2) 0 0 webMercHalf)
    tile_envelope_y_clamped_x_unclamped.2.1

/-- C10: a bounds geometry with no SRID does not make `tile_envelope` fail —
the envelope is tagged with the default SRID 3857 — and when the bounds do
carry an SRID, that SRID is the one on the result. -/
theorem tile_envelope_bounds_srid_resolution :
    (∀ (zoom x y : Int) (b : Bounds) (m? : Option ℚ) (p : EnvPoly),
      b.srid = none →
      tile_envelope zoom x y (some b) m? = .ok p → p.srid = 3857) ∧
    (∀ (zoom x y : Int) (b : Bounds) (m? : Option ℚ) (p : EnvPoly) (s : Int),
      b.srid = some s →
      tile_envelope zoom x y (some b) m? = .ok p → p.srid = s) ∧
    (tile_envelope 0 0 0 (some { srid := none, bbox := defaultBounds.bbox })
        none =
      .ok (construct_envelope 3857 (-webMercHalf) (-webMercHalf)
        webMercHalf webMercHalf)) := by
  refine ⟨?_, ?_, ?_⟩
  · intro zoom x y b m? p hs h
    obtain ⟨x1, x2, rfl⟩ := tile_envelope_ok_shape zoom x y (some b) m? p h
    simp [construct_envelope, hs]
  · intro zoom x y b m? p s hs h
    obtain ⟨x1, x2, rfl⟩ := tile_envelope_ok_shape zoom x y (some b) m? p h
    simp [construct_envelope, hs]
  · norm_num [tile_envelope, defaultBounds, webMercHalf, worldTileSize,
      construct_envelope, Int.toNat_ofNat, show Int.toNat 2 = 2 from rfl]

/-- Witness for C10: the SRID-less default box call produces SRID 3857. -/
theorem tile_envelope_bounds_srid_resolution_witness :
    (construct_envelope 3857 (-webMercHalf) (-webMercHalf) webMercHalf
        webMercHalf).srid = 3857 :=
  tile_envelope_bounds_srid_resolution.1 0 0 0
    { srid := none, bbox := defaultBounds.bbox } none
    (construct_envelope 3857 (-webMercHalf) (-webMercHalf) webMercHalf
      webMercHalf) rfl
    tile_envelope_bounds_srid_resolution.2.2
